import Mathlib

/-!
Verification of the Nav-app road-condition pipeline.

The development shallowly embeds three components of the repository:

* the community speed-bump merge engine
  (`server/routes/community.ts`, POST /speed-bumps handler, together with
  the `community_speed_bumps` table schema from the database setup);
* the Haversine geodesy utility `calculateDistance` and the trip rollup
  of the PUT /:id/complete session handler;
* the accelerometer speed-bump detector and calibration logic
  (`src/contexts/AccelerometerContext.tsx`);
* the WebSocket fan-out hub (`server/websocket.ts`).

Numbers held in JS variables and SQLite REAL columns are modelled as
rationals (for the computable control flow) and as reals (for the
transcendental distance computation); SQLite INTEGER columns are
modelled as integers.
-/

/-- Rounding to the nearest integer with halves rounding toward
positive infinity, as JS Math.round does: the floor of `q + 1/2`. -/
def jsRound (q : ℚ) : ℤ := ⌊q + 1/2⌋

/-- A row of the `community_speed_bumps` table.  The schema declares
`latitude REAL`, `longitude REAL`, `intensity INTEGER`,
`timestamp INTEGER`, `verified_count INTEGER DEFAULT 1`,
`last_verified INTEGER`.  The `user_id` and `detection_method` text
columns play no role in the merge logic and are omitted. -/
structure CommunityRecord where
  latitude : ℚ
  longitude : ℚ
  intensity : ℤ
  timestamp : ℤ
  verifiedCount : ℤ
  lastVerified : ℤ
  deriving Repr, DecidableEq, Inhabited

/-- The body of a POST /speed-bumps request: latitude, longitude and
intensity, plus the server-side `Date.now()` timestamp taken when the
request is handled. -/
structure Submission where
  latitude : ℚ
  longitude : ℚ
  intensity : ℤ
  timestamp : ℤ
  deriving Repr, DecidableEq

/-- The JSON answer of the handler: `created` is true on the 201 path
(new record inserted, response field `verified: false`) and false on the
update path; `verifications` is the reported verification count. -/
structure MergeResult where
  created : Bool
  verifications : ℤ
  deriving Repr, DecidableEq

/-- A row of `community_traffic_data` as appended by
`contributeToTrafficData` (the time-of-day and user columns are
irrelevant here and omitted). -/
structure TrafficSample where
  latitude : ℚ
  longitude : ℚ
  speed : ℚ
  timestamp : ℤ
  deriving Repr, DecidableEq

/-- The mutable server state touched by the handler: the
`community_speed_bumps` table in rowid order and the
`community_traffic_data` table in insertion order. -/
structure ServerState where
  bumps : List CommunityRecord
  traffic : List TrafficSample
  deriving Repr, DecidableEq

/-- The empty database. -/
def initialServerState : ServerState := ⟨[], []⟩

/-- The WHERE clause of the candidate query:
`ABS(latitude - ?) < 0.0005 AND ABS(longitude - ?) < 0.0005`. -/
def withinBox (lat lon : ℚ) (r : CommunityRecord) : Prop :=
  |r.latitude - lat| < 0.0005 ∧ |r.longitude - lon| < 0.0005

instance (lat lon : ℚ) (r : CommunityRecord) : Decidable (withinBox lat lon r) := by
  unfold withinBox
  infer_instance

/-- The ORDER BY key of the candidate query:
`ABS(latitude - ?) + ABS(longitude - ?)`, the Manhattan distance in
degrees. -/
def manhattan (lat lon : ℚ) (r : CommunityRecord) : ℚ :=
  |r.latitude - lat| + |r.longitude - lon|

/-- The `SELECT ... WHERE box ORDER BY manhattan ASC LIMIT 1` query:
among rows inside the box, the index (in rowid order) and Manhattan key
of the row with the smallest key, earlier rows winning ties. -/
def bestMatch (lat lon : ℚ) : List CommunityRecord → Option (ℕ × ℚ)
  | [] => none
  | r :: rest =>
    let tail := (bestMatch lat lon rest).map (fun p => (p.1 + 1, p.2))
    if withinBox lat lon r then
      match tail with
      | none => some (0, manhattan lat lon r)
      | some (j, d) =>
        if manhattan lat lon r ≤ d then some (0, manhattan lat lon r) else some (j, d)
    else tail

/-- The UPDATE branch of the handler:
`verified_count = verified_count + 1`, `last_verified = ?`,
`intensity = ROUND((intensity * verified_count + ?) / (verified_count + 1))`.
All three operands of the division are SQLite INTEGER values, so `/` is
SQLite integer division, which truncates toward zero (`Int.tdiv`), and
the outer ROUND is the identity on the resulting integer. -/
def reinforce (r : CommunityRecord) (intensity : ℤ) (now : ℤ) : CommunityRecord :=
  { r with
    verifiedCount := r.verifiedCount + 1
    lastVerified := now
    intensity := Int.tdiv (r.intensity * r.verifiedCount + intensity) (r.verifiedCount + 1) }

/-- The POST /speed-bumps handler.  `none` models the 400 rejection
taken when `!latitude || !longitude || !intensity` holds, i.e. when any
of the three numeric fields is 0 (the falsy number); on that path the
handler returns before any database statement runs.  Otherwise the
nearest in-box record is reinforced (response `created = false`) or a
fresh record with `verified_count = 1` is inserted (201, `created =
true`), and in both cases `contributeToTrafficData` appends a
speed-0 traffic sample. -/
def submit (st : ServerState) (e : Submission) : Option MergeResult × ServerState :=
  if e.latitude = 0 ∨ e.longitude = 0 ∨ e.intensity = 0 then
    (none, st)
  else
    let trafficRow : TrafficSample := ⟨e.latitude, e.longitude, 0, e.timestamp⟩
    match bestMatch e.latitude e.longitude st.bumps with
    | some (i, _) =>
      let r := st.bumps.getD i default
      (some ⟨false, r.verifiedCount + 1⟩,
        ⟨st.bumps.set i (reinforce r e.intensity e.timestamp),
          st.traffic ++ [trafficRow]⟩)
    | none =>
      (some ⟨true, 1⟩,
        ⟨st.bumps ++ [⟨e.latitude, e.longitude, e.intensity, e.timestamp, 1, e.timestamp⟩],
          st.traffic ++ [trafficRow]⟩)

/-- Server state after a sequence of submissions. -/
def processAll (st : ServerState) (es : List Submission) : ServerState :=
  es.foldl (fun s e => (submit s e).2) st

/-- The coordinate pair of a record; the merge never modifies it. -/
def coords (r : CommunityRecord) : ℚ × ℚ := (r.latitude, r.longitude)

/-- Degree-box separation of two coordinate pairs: they differ by at
least 0.0005 degrees in latitude or in longitude. -/
def degSeparated (p q : ℚ × ℚ) : Prop :=
  0.0005 ≤ |p.1 - q.1| ∨ 0.0005 ≤ |p.2 - q.2|

/-- Iterated reinforcement of one record by a list of
(intensity, timestamp) events. -/
def reinforceMany (r : CommunityRecord) (events : List (ℤ × ℤ)) : CommunityRecord :=
  events.foldl (fun s e => reinforce s e.1 e.2) r

/-- The integer recurrence actually applied to the stored intensity:
state is (intensity, verified count), one step is
`((intensity * count + i) tdiv (count + 1), count + 1)`. -/
def intensityTrace (p : ℤ × ℤ) (events : List (ℤ × ℤ)) : ℤ × ℤ :=
  events.foldl (fun q e => (Int.tdiv (q.1 * q.2 + e.1) (q.2 + 1), q.2 + 1)) p

/-- JS Math.atan2, case-split exactly as specified for Number
arguments (the NaN cases cannot arise below). -/
noncomputable def atan2 (y x : ℝ) : ℝ :=
  if 0 < x then Real.arctan (y / x)
  else if x < 0 then
    if 0 ≤ y then Real.arctan (y / x) + Real.pi else Real.arctan (y / x) - Real.pi
  else
    if 0 < y then Real.pi / 2 else if y < 0 then -(Real.pi / 2) else 0

/-- The Haversine helper `calculateDistance(lat1, lon1, lat2, lon2)`
from the session routes file: R = 6371e3 metres, angles converted by
`* Math.PI / 180`, `a = sin(dphi/2)^2 + cos(phi1) cos(phi2) sin(dlam/2)^2`,
`c = 2 atan2(sqrt(a), sqrt(1-a))`, result `R * c`. -/
noncomputable def calculateDistance (lat1 lon1 lat2 lon2 : ℝ) : ℝ :=
  let R : ℝ := 6371000
  let phi1 := lat1 * Real.pi / 180
  let phi2 := lat2 * Real.pi / 180
  let dphi := (lat2 - lat1) * Real.pi / 180
  let dlam := (lon2 - lon1) * Real.pi / 180
  let a := Real.sin (dphi / 2) * Real.sin (dphi / 2) +
    Real.cos phi1 * Real.cos phi2 * (Real.sin (dlam / 2) * Real.sin (dlam / 2))
  let c := 2 * atan2 (Real.sqrt a) (Real.sqrt (1 - a))
  R * c

/-- A point of the completed session: `{latitude, longitude, speed,
timestamp}` as consumed by the PUT /:id/complete handler. -/
structure TripPoint where
  latitude : ℚ
  longitude : ℚ
  speed : ℚ
  timestamp : ℤ
  deriving Repr, DecidableEq

/-- `points.map(p => p.speed || 0).filter(s => s > 0)`: the strictly
positive reported speeds (zero and negative speeds are dropped, and a
missing speed defaults to the falsy 0, which is dropped too). -/
def positiveSpeeds (points : List TripPoint) : List ℚ :=
  (points.map (fun p => p.speed)).filter (fun s => 0 < s)

/-- `speeds.length > 0 ? speeds.reduce((a,b) => a+b,0)/speeds.length : 0`. -/
def averageSpeed (points : List TripPoint) : ℚ :=
  let speeds := positiveSpeeds points
  if 0 < speeds.length then speeds.sum / speeds.length else 0

/-- `speeds.length > 0 ? Math.max(...speeds) : 0`. -/
def maxSpeed (points : List TripPoint) : ℚ :=
  match positiveSpeeds points with
  | [] => 0
  | s :: rest => rest.foldl max s

/-- The distance loop: `for (i = 1; i < points.length; i++) distance +=
calculateDistance(points[i-1], points[i])`. -/
noncomputable def tripDistance : List TripPoint → ℝ
  | p :: q :: rest =>
    calculateDistance p.latitude p.longitude q.latitude q.longitude +
      tripDistance (q :: rest)
  | _ => 0

/-- The rollup stored on the completed session (duration and end time
come from the session row, not from the points, and are omitted). -/
structure TripRollup where
  distance : ℝ
  averageSpeed : ℚ
  maxSpeed : ℚ

/-- The metric computation of the PUT /:id/complete handler. -/
noncomputable def finalize (points : List TripPoint) : TripRollup :=
  ⟨tripDistance points, averageSpeed points, maxSpeed points⟩

/-- A processed motion event: the `Date.now()` timestamp and the
calibrated magnitude `sqrt(x^2 + y^2 + z^2)` computed upstream in
`handleDeviceMotion` from the baseline-corrected axes. -/
structure MotionSample where
  timestamp : ℤ
  magnitude : ℚ
  deriving Repr, DecidableEq

/-- The detector state read by `analyzeForSpeedBump`: the sensitivity
threshold (default 2.5), the time of the last confirmed detection, and
the rolling movement buffer (capacity 20, most recent last). -/
structure DetectorState where
  sensitivity : ℚ
  lastSignificantMovement : ℤ
  movementBuffer : List MotionSample
  deriving Repr, DecidableEq

/-- `detectionCooldown = 3000` ms. -/
def detectionCooldown : ℤ := 3000

/-- `bufferSize = 20`. -/
def bufferSize : ℕ := 20

/-- `movementBuffer.slice(-5).map(d => d.magnitude)`: the magnitudes of
the five most recent buffered samples. -/
def recentWindow (buf : List MotionSample) : List ℚ :=
  (buf.drop (buf.length - 5)).map (fun d => d.magnitude)

/-- `analyzeForSpeedBump`: skip inside the cooldown window; otherwise
confirm iff the magnitude exceeds the sensitivity threshold, the buffer
holds at least 5 samples, and the magnitude exceeds 1.5 times the mean
of the five most recent buffered magnitudes.  On confirmation the
cooldown timer is reset to the sample time. -/
def analyzeForSpeedBump (st : DetectorState) (d : MotionSample) : Bool × DetectorState :=
  if d.timestamp - st.lastSignificantMovement < detectionCooldown then (false, st)
  else if st.sensitivity < d.magnitude then
    if 5 ≤ st.movementBuffer.length then
      let recentMagnitudes := recentWindow st.movementBuffer
      let avgRecent := recentMagnitudes.sum / recentMagnitudes.length
      if avgRecent * 1.5 < d.magnitude then
        (true, { st with lastSignificantMovement := d.timestamp })
      else (false, st)
    else (false, st)
  else (false, st)

/-- `newBuffer.slice(-bufferSize)` after appending the new sample. -/
def pushSample (buf : List MotionSample) (d : MotionSample) : List MotionSample :=
  (buf ++ [d]).drop ((buf ++ [d]).length - bufferSize)

/-- One `handleDeviceMotion` step: the analysis reads the buffer still
missing the current sample (the React state update is queued), then the
buffer gains the sample. -/
def handleMotionStep (st : DetectorState) (d : MotionSample) : Bool × DetectorState :=
  let r := analyzeForSpeedBump st d
  (r.1, { r.2 with movementBuffer := pushSample st.movementBuffer d })

/-- Feed a stream of samples through the detector, collecting the
timestamps of the confirmed detections in order. -/
def runDetector (st : DetectorState) : List MotionSample → DetectorState × List ℤ
  | [] => (st, [])
  | d :: ds =>
    let r := handleMotionStep st d
    let rest := runDetector r.2 ds
    (rest.1, (if r.1 then [d.timestamp] else []) ++ rest.2)

/-- One raw accelerometer reading collected by the calibration
handler. -/
structure Axes where
  x : ℚ
  y : ℚ
  z : ℚ
  deriving Repr, DecidableEq

/-- The calibration state: the committed baseline vector and the
`isCalibrated` flag. -/
structure CalibrationState where
  baseline : Axes
  isCalibrated : Bool
  deriving Repr, DecidableEq

/-- The componentwise arithmetic mean over the collected samples, as
computed by the three `reduce(...)/samples.length` expressions. -/
def meanAxes (samples : List Axes) : Axes :=
  ⟨(samples.map (fun s => s.x)).sum / samples.length,
   (samples.map (fun s => s.y)).sum / samples.length,
   (samples.map (fun s => s.z)).sum / samples.length⟩

/-- `calibrate()`, as a function of the readings delivered before the
5 s timeout fires.  If 50 samples arrive, the handler commits the mean
of those 50 and resolves early.  Otherwise the timeout path commits the
mean only when strictly more than 10 samples were collected; with 10 or
fewer it shows `Calibration failed - using default values` and leaves
both the baseline and the `isCalibrated` flag untouched. -/
def calibrate (st : CalibrationState) (delivered : List Axes) : CalibrationState :=
  if 50 ≤ delivered.length then
    ⟨meanAxes (delivered.take 50), true⟩
  else if 10 < delivered.length then
    ⟨meanAxes delivered, true⟩
  else st

/-- A WebSocket connection as the hub sees it: its identity, the
session id stored on it by the last location or session update, and
whether `readyState === OPEN`.  Object identity of the `ws` handle is
modelled by `cid`. -/
structure Client where
  cid : ℕ
  sessionId : Option String
  isOpen : Bool
  deriving Repr, DecidableEq

/-- The messages the hub pushes to clients in the two handlers studied
here (`senderId` carries the `userId` attached from the sending
connection). -/
inductive OutMsg where
  | liveLocation (sessionId : String) (latitude longitude : ℚ) (senderId : ℕ)
  | locationAck (sessionId : String)
  | communitySpeedBump (sessionId : String) (latitude longitude : ℚ)
      (intensity : ℤ) (senderId : ℕ)
  | speedBumpAck
  deriving Repr, DecidableEq

/-- `broadcastToOthers`: send to every client that is not the sender
and whose socket is open.  There is no session filter. -/
def broadcastToOthers (clients : List Client) (sender : Client) (m : OutMsg) :
    List (ℕ × OutMsg) :=
  (clients.filter (fun c => c.cid != sender.cid && c.isOpen)).map (fun c => (c.cid, m))

/-- `broadcastToAll`: send to every open client, the sender
included. -/
def broadcastToAll (clients : List Client) (m : OutMsg) : List (ℕ × OutMsg) :=
  (clients.filter (fun c => c.isOpen)).map (fun c => (c.cid, m))

/-- An incoming `location_update` message. -/
structure LocationMsg where
  sessionId : String
  latitude : ℚ
  longitude : ℚ
  deriving Repr, DecidableEq

/-- An incoming `speed_bump_detected` message. -/
structure BumpMsg where
  sessionId : String
  latitude : ℚ
  longitude : ℚ
  intensity : ℤ
  deriving Repr, DecidableEq

/-- `handleLocationUpdate`: store the session id on the sending
connection, relay a `live_location` broadcast through
`broadcastToOthers`, then acknowledge to the sender.  Returns the
updated client list and the deliveries in order. -/
def handleLocationUpdate (clients : List Client) (sender : Client) (m : LocationMsg) :
    List Client × List (ℕ × OutMsg) :=
  let clients' := clients.map (fun c =>
    if c.cid = sender.cid then { c with sessionId := some m.sessionId } else c)
  (clients',
    broadcastToOthers clients' sender
        (OutMsg.liveLocation m.sessionId m.latitude m.longitude sender.cid) ++
      [(sender.cid, OutMsg.locationAck m.sessionId)])

/-- `handleSpeedBumpDetection`: relay a `community_speed_bump`
broadcast through `broadcastToAll`, then send the
`speed_bump_reported` confirmation to the sender. -/
def handleSpeedBumpDetection (clients : List Client) (sender : Client) (m : BumpMsg) :
    List (ℕ × OutMsg) :=
  broadcastToAll clients
      (OutMsg.communitySpeedBump m.sessionId m.latitude m.longitude m.intensity sender.cid) ++
    [(sender.cid, OutMsg.speedBumpAck)]

/-- The candidate query returns no row exactly when no record lies in
the degree box around the event. -/
theorem bestMatch_eq_none (lat lon : ℚ) (l : List CommunityRecord) :
    bestMatch lat lon l = none ↔ ∀ r ∈ l, ¬ withinBox lat lon r := by
  induction l with
  | nil => simp [bestMatch]
  | cons r rest ih =>
    by_cases hw : withinBox lat lon r
    · simp only [bestMatch, if_pos hw]
      constructor
      · intro h
        exfalso
        rcases hb : bestMatch lat lon rest with _ | p
        · rw [hb] at h; simp at h
        · rw [hb] at h
          simp only [Option.map_some'] at h
          split at h <;> simp_all
      · intro h
        exact absurd hw (h r (List.mem_cons_self r rest))
    · simp only [bestMatch, if_neg hw, Option.map_eq_none']
      rw [ih]
      constructor
      · intro h s hs
        rcases List.mem_cons.mp hs with rfl | hs'
        · exact hw
        · exact h s hs'
      · intro h s hs
        exact h s (List.mem_cons_of_mem r hs)

/-- An in-range default lookup is a member of the list. -/
theorem getD_mem_of_lt {α : Type} [Inhabited α] :
    ∀ (l : List α) (i : ℕ), i < l.length → l.getD i default ∈ l
  | a :: l, 0, _ => List.mem_cons_self a l
  | a :: l, i + 1, h =>
    List.mem_cons_of_mem a (getD_mem_of_lt l i (by simpa using h))

/-- Specification of the candidate query when it returns a row: the
returned index is in range and inside the degree box, the returned key
is its Manhattan distance, no in-box row has a smaller key, and every
earlier in-box row has a strictly larger key (ties are won by the first
row). -/
theorem bestMatch_spec (lat lon : ℚ) :
    ∀ (l : List CommunityRecord) (i : ℕ) (d : ℚ),
      bestMatch lat lon l = some (i, d) →
      i < l.length ∧
      withinBox lat lon (l.getD i default) ∧
      d = manhattan lat lon (l.getD i default) ∧
      (∀ j, j < l.length → withinBox lat lon (l.getD j default) →
        d ≤ manhattan lat lon (l.getD j default)) ∧
      (∀ j, j < i → withinBox lat lon (l.getD j default) →
        d < manhattan lat lon (l.getD j default)) := by
  intro l
  induction l with
  | nil => intro i d h; simp [bestMatch] at h
  | cons r rest ih =>
    intro i d h
    by_cases hw : withinBox lat lon r
    · simp only [bestMatch, if_pos hw] at h
      rcases hb : bestMatch lat lon rest with _ | ⟨j0, d0⟩
      · rw [hb] at h
        simp only [Option.map_none', Option.some.injEq, Prod.mk.injEq] at h
        obtain ⟨rfl, rfl⟩ := h
        refine ⟨by simp, by simpa, by simp, ?_, by omega⟩
        intro j hj hwj
        cases j with
        | zero => simp
        | succ j =>
          exfalso
          have hj' : j < rest.length := by simpa using hj
          have hmem : rest.getD j default ∈ rest := getD_mem_of_lt rest j hj'
          have := (bestMatch_eq_none lat lon rest).mp hb (rest.getD j default) hmem
          exact this (by simpa using hwj)
      · rw [hb] at h
        simp only [Option.map_some'] at h
        obtain ⟨hlen0, hw0, hd0, hmin0, hstrict0⟩ := ih j0 d0 hb
        by_cases hm : manhattan lat lon r ≤ d0
        · rw [if_pos hm] at h
          simp only [Option.some.injEq, Prod.mk.injEq] at h
          obtain ⟨rfl, rfl⟩ := h
          refine ⟨by simp, by simpa, by simp, ?_, by omega⟩
          intro j hj hwj
          cases j with
          | zero => simp
          | succ j =>
            have hj' : j < rest.length := by simpa using hj
            have := hmin0 j hj' (by simpa using hwj)
            simp only [List.getD_cons_succ]
            linarith
        · rw [if_neg hm] at h
          simp only [Option.some.injEq, Prod.mk.injEq] at h
          obtain ⟨rfl, rfl⟩ := h
          push_neg at hm
          refine ⟨by simpa using Nat.succ_lt_succ hlen0, by simpa using hw0,
            by simpa using hd0, ?_, ?_⟩
          · intro j hj hwj
            cases j with
            | zero => simpa using hm.le
            | succ j =>
              have hj' : j < rest.length := by simpa using hj
              simpa using hmin0 j hj' (by simpa using hwj)
          · intro j hj hwj
            cases j with
            | zero => simpa using hm
            | succ j =>
              have hj' : j < j0 := by omega
              simpa using hstrict0 j hj' (by simpa using hwj)
    · simp only [bestMatch, if_neg hw] at h
      rcases hb : bestMatch lat lon rest with _ | ⟨j0, d0⟩
      · rw [hb] at h; simp at h
      · rw [hb] at h
        simp only [Option.map_some', Option.some.injEq, Prod.mk.injEq] at h
        obtain ⟨rfl, rfl⟩ := h
        obtain ⟨hlen0, hw0, hd0, hmin0, hstrict0⟩ := ih j0 d0 hb
        refine ⟨by simpa using Nat.succ_lt_succ hlen0, by simpa using hw0,
          by simpa using hd0, ?_, ?_⟩
        · intro j hj hwj
          cases j with
          | zero => exact absurd (by simpa using hwj) hw
          | succ j =>
            have hj' : j < rest.length := by simpa using hj
            simpa using hmin0 j hj' (by simpa using hwj)
        · intro j hj hwj
          cases j with
          | zero => exact absurd (by simpa using hwj) hw
          | succ j =>
            have hj' : j < j0 := by omega
            simpa using hstrict0 j hj' (by simpa using hwj)

/-- Reinforcing the record at a given index leaves the coordinate
column of the table unchanged. -/
theorem coords_set_reinforce :
    ∀ (l : List CommunityRecord) (i : ℕ) (x t : ℤ),
      (l.set i (reinforce (l.getD i default) x t)).map coords = l.map coords
  | [], _, _, _ => by simp
  | r :: rest, 0, x, t => by simp [reinforce, coords]
  | r :: rest, i + 1, x, t => by
    simp only [List.getD_cons_succ, List.set_cons_succ, List.map_cons]
    rw [coords_set_reinforce rest i x t]

/-- One submission preserves pairwise degree-box separation of the
table: an update never moves a record, and an insertion only happens
when no existing record lies in the box around the new coordinates. -/
theorem submit_preserves_degSeparated (st : ServerState) (e : Submission)
    (h : (st.bumps.map coords).Pairwise degSeparated) :
    (((submit st e).2.bumps).map coords).Pairwise degSeparated := by
  unfold submit
  by_cases hv : e.latitude = 0 ∨ e.longitude = 0 ∨ e.intensity = 0
  · rw [if_pos hv]; exact h
  · rw [if_neg hv]
    rcases hb : bestMatch e.latitude e.longitude st.bumps with _ | ⟨i, d⟩
    · simp only [List.map_append, List.map_cons, List.map_nil]
      rw [List.pairwise_append]
      refine ⟨h, List.pairwise_singleton _ _, ?_⟩
      intro p hp q hq
      simp only [List.mem_singleton] at hq
      subst hq
      simp only [List.mem_map] at hp
      obtain ⟨r, hr, rfl⟩ := hp
      have hnw := (bestMatch_eq_none _ _ _).mp hb r hr
      unfold withinBox at hnw
      push_neg at hnw
      unfold degSeparated coords
      by_cases hlat : |r.latitude - e.latitude| < 0.0005
      · right
        simpa using hnw hlat
      · left
        simpa using le_of_not_lt hlat
    · simp only [hb]
      rw [coords_set_reinforce]
      exact h

/-- Processing any batch of submissions preserves pairwise degree-box
separation of the table coordinates. -/
theorem processAll_degSeparated :
    ∀ (es : List Submission) (st : ServerState),
      (st.bumps.map coords).Pairwise degSeparated →
      (((processAll st es).bumps).map coords).Pairwise degSeparated
  | [], _, h => h
  | e :: es, st, h =>
    processAll_degSeparated es (submit st e).2 (submit_preserves_degSeparated st e h)

/-- C1 (amended): starting from an empty table, any two
CommunityRecords produced by the aggregation engine differ by at least
0.0005 degrees in latitude or in longitude (the separation the
degree-box match actually enforces).  This does not bound their
great-circle distance below by 50 m: near the poles 0.0005 degrees of
longitude is far shorter than 50 m. -/
theorem records_pairwise_degree_separated (es : List Submission) :
    ((processAll initialServerState es).bumps).Pairwise
      (fun r s =>
        0.0005 ≤ |r.latitude - s.latitude| ∨ 0.0005 ≤ |r.longitude - s.longitude|) := by
  have h := processAll_degSeparated es initialServerState (by simp [initialServerState])
  rw [List.pairwise_map] at h
  exact h

/-- C2 (amended): reinforcing a record with N further matching
submissions yields verifiedCount = (original count) + N and leaves the
coordinates unchanged, while the stored intensity follows the per-step
truncating integer-division recurrence `intensityTrace` (SQLite integer
division; NOT the rounded rational cumulative mean, and iterating it
does not in general give round of the overall mean). -/
theorem reinforceMany_spec :
    ∀ (events : List (ℤ × ℤ)) (r : CommunityRecord),
      (reinforceMany r events).verifiedCount = r.verifiedCount + events.length ∧
      (reinforceMany r events).latitude = r.latitude ∧
      (reinforceMany r events).longitude = r.longitude ∧
      (reinforceMany r events).intensity =
        (intensityTrace (r.intensity, r.verifiedCount) events).1
  | [], r => by simp [reinforceMany, intensityTrace]
  | e :: es, r => by
    obtain ⟨h1, h2, h3, h4⟩ := reinforceMany_spec es (reinforce r e.1 e.2)
    have hstep : reinforceMany r (e :: es) = reinforceMany (reinforce r e.1 e.2) es := rfl
    have htr : intensityTrace (r.intensity, r.verifiedCount) (e :: es) =
        intensityTrace
          (Int.tdiv (r.intensity * r.verifiedCount + e.1) (r.verifiedCount + 1),
            r.verifiedCount + 1) es := rfl
    refine ⟨?_, ?_, ?_, ?_⟩
    · rw [hstep, h1]
      simp [reinforce]
      ring
    · rw [hstep, h2]; rfl
    · rw [hstep, h3]; rfl
    · rw [hstep, h4, htr]
      rfl

/-- C2 (counterexample to the claim as stated): create a record with
intensity 1, then reinforce it once with intensity 2 at the same
coordinates.  The engine stores intensity (1*1 + 2) tdiv 2 = 1 with
verifiedCount 2, while the claimed cumulative-mean law predicts
round(mean(1, 2)) = round(1.5) = 2. -/
theorem reinforce_cumulative_mean_fails :
    ((processAll initialServerState [⟨10, 20, 1, 0⟩, ⟨10, 20, 2, 1⟩]).bumps.map
      (fun r => (r.intensity, r.verifiedCount)) = [(1, 2)]) ∧
    jsRound (((1 : ℚ) + 2) / 2) = 2 ∧ (1 : ℤ) ≠ 2 := by
  refine ⟨?_, ?_, by decide⟩
  · norm_num [processAll, submit, bestMatch, withinBox, manhattan, reinforce,
      initialServerState]
    decide
  · norm_num [jsRound]

/-- C10: a submission in which latitude, longitude or intensity is the
falsy number 0 is rejected with a 400 error before any database
statement runs: no record is merged or inserted and no traffic sample
is appended. -/
theorem zero_field_submission_rejected (st : ServerState) (e : Submission)
    (h : e.latitude = 0 ∨ e.longitude = 0 ∨ e.intensity = 0) :
    submit st e = (none, st) := by
  unfold submit
  rw [if_pos h]

/-- Witness for C10: an event exactly on the equator (latitude 0) is
rejected and the state is unchanged. -/
theorem zero_field_submission_rejected_witness :
    submit initialServerState ⟨0, 50, 7, 3⟩ = (none, initialServerState) :=
  zero_field_submission_rejected initialServerState ⟨0, 50, 7, 3⟩ (Or.inl rfl)

/-- arctan of a positive number is smaller than the number. -/
theorem arctan_lt_self {x : ℝ} (h1 : 0 < x) : Real.arctan x < x := by
  have h0 : 0 < Real.arctan x := by
    rw [← Real.arctan_zero]
    exact Real.arctan_strictMono h1
  have := Real.lt_tan h0 (Real.arctan_lt_pi_div_two x)
  rwa [Real.tan_arctan] at this

/-- On one parallel the Haversine formula degenerates: the latitude
half-angle term vanishes. -/
theorem calculateDistance_same_lat (lat lon1 lon2 : ℝ) :
    calculateDistance lat lon1 lat lon2 =
      6371000 * (2 * atan2
        (Real.sqrt (Real.cos (lat * Real.pi / 180) * Real.cos (lat * Real.pi / 180) *
          (Real.sin ((lon2 - lon1) * Real.pi / 180 / 2) *
           Real.sin ((lon2 - lon1) * Real.pi / 180 / 2))))
        (Real.sqrt (1 - Real.cos (lat * Real.pi / 180) * Real.cos (lat * Real.pi / 180) *
          (Real.sin ((lon2 - lon1) * Real.pi / 180 / 2) *
           Real.sin ((lon2 - lon1) * Real.pi / 180 / 2))))) := by
  simp only [calculateDistance]
  have e1 : (lat - lat) * Real.pi / 180 / 2 = 0 := by ring
  rw [e1, Real.sin_zero]
  norm_num

theorem calculateDistance_89_lt_50 :
    calculateDistance 89 10 89 10.0006 < 50 := by
  rw [calculateDistance_same_lat]
  have hπl : (3.1415 : ℝ) < Real.pi := Real.pi_gt_d4
  have hπu : Real.pi < 3.1416 := Real.pi_lt_d4
  have h89 : (89 : ℝ) * Real.pi / 180 = Real.pi / 2 - Real.pi / 180 := by ring
  have hcos : Real.cos ((89 : ℝ) * Real.pi / 180) = Real.sin (Real.pi / 180) := by
    rw [h89, Real.cos_pi_div_two_sub]
  have e2 : ((10.0006 : ℝ) - 10) * Real.pi / 180 / 2 = 0.0003 * (Real.pi / 180) := by
    norm_num
    ring
  rw [hcos, e2]
  set su := Real.sin (Real.pi / 180) with hsu_def
  set s := Real.sin (0.0003 * (Real.pi / 180)) with hs_def
  have hsu_pos : 0 < su := by
    apply Real.sin_pos_of_pos_of_lt_pi
    · positivity
    · nlinarith [Real.pi_pos]
  have hsu_lt : su < 0.01746 := by
    have := Real.sin_lt (x := Real.pi / 180) (by positivity)
    nlinarith
  have hs_pos : 0 < s := by
    apply Real.sin_pos_of_pos_of_lt_pi
    · positivity
    · nlinarith [Real.pi_pos]
  have hs_lt : s < 0.00000524 := by
    have := Real.sin_lt (x := 0.0003 * (Real.pi / 180)) (by positivity)
    nlinarith
  have hsus_pos : 0 < su * s := mul_pos hsu_pos hs_pos
  have hsus_lt : su * s < 0.0000001 := by nlinarith
  have ha_eq : su * su * (s * s) = (su * s) * (su * s) := by ring
  rw [ha_eq, Real.sqrt_mul_self hsus_pos.le]
  have ha_small : (su * s) * (su * s) < 0.51 := by nlinarith
  have hden : (0.7 : ℝ) ≤ Real.sqrt (1 - (su * s) * (su * s)) := by
    apply Real.le_sqrt_of_sq_le
    nlinarith
  have hden_pos : 0 < Real.sqrt (1 - (su * s) * (su * s)) := lt_of_lt_of_le (by norm_num) hden
  rw [atan2, if_pos hden_pos]
  have ht_pos : 0 < su * s / Real.sqrt (1 - (su * s) * (su * s)) := div_pos hsus_pos hden_pos
  have ht_le : su * s / Real.sqrt (1 - (su * s) * (su * s)) ≤ su * s / 0.7 :=
    div_le_div_of_nonneg_left hsus_pos.le (by norm_num) hden
  have ht_lt : su * s / 0.7 < 0.000000143 := by
    rw [div_lt_iff₀ (by norm_num)]
    nlinarith
  have harc := arctan_lt_self ht_pos
  linarith

theorem calculateDistance_equator_small :
    calculateDistance 0 0 0 0.001 = 6371000 * (2 * (0.0005 * (Real.pi / 180))) := by
  rw [calculateDistance_same_lat]
  have e0 : (0 : ℝ) * Real.pi / 180 = 0 := by ring
  have e2 : ((0.001 : ℝ) - 0) * Real.pi / 180 / 2 = 0.0005 * (Real.pi / 180) := by ring
  rw [e0, Real.cos_zero, e2]
  have hπl : (3.1415 : ℝ) < Real.pi := Real.pi_gt_d4
  have hπu : Real.pi < 3.1416 := Real.pi_lt_d4
  set x := (0.0005 : ℝ) * (Real.pi / 180) with hx_def
  have hx_pos : 0 < x := by positivity
  have hx_lt : x < Real.pi / 2 := by nlinarith [Real.pi_pos]
  have hs_pos : 0 < Real.sin x := by
    apply Real.sin_pos_of_pos_of_lt_pi hx_pos
    nlinarith [Real.pi_pos]
  have hc_pos : 0 < Real.cos x := by
    apply Real.cos_pos_of_mem_Ioo
    constructor
    · nlinarith [Real.pi_pos]
    · exact hx_lt
  have ha1 : (1 : ℝ) * 1 * (Real.sin x * Real.sin x) = Real.sin x * Real.sin x := by ring
  rw [ha1, Real.sqrt_mul_self hs_pos.le]
  have hid : Real.sin x ^ 2 + Real.cos x ^ 2 = 1 := Real.sin_sq_add_cos_sq x
  have ha2 : 1 - Real.sin x * Real.sin x = Real.cos x * Real.cos x := by nlinarith
  rw [ha2, Real.sqrt_mul_self hc_pos.le]
  rw [atan2, if_pos hc_pos]
  rw [← Real.tan_eq_sin_div_cos, Real.arctan_tan (by nlinarith [Real.pi_pos]) hx_lt]

/-- C1 (counterexample to the claim as stated): two submissions at
latitude 89 whose longitudes differ by 0.0006 degrees both create
records (the degree-box match fails), yet the great-circle distance
between the two records is under 50 m — the merge radius invariant does
not hold. -/
theorem merge_radius_invariant_fails :
    ((processAll initialServerState
        [⟨89, 10, 5, 0⟩, ⟨89, 10.0006, 5, 1⟩]).bumps.map coords =
      [(89, 10), (89, 10.0006)]) ∧
    calculateDistance 89 10 89 10.0006 < 50 := by
  constructor
  · norm_num [processAll, submit, bestMatch, withinBox, manhattan,
      initialServerState, coords, abs_lt]
  · exact calculateDistance_89_lt_50

/-- The seed of a left max fold bounds the fold from below. -/
theorem le_foldl_max : ∀ (l : List ℚ) (s : ℚ), s ≤ l.foldl max s
  | [], _ => le_refl _
  | a :: l, s => le_trans (le_max_left s a) (le_foldl_max l (max s a))

/-- Every member of the list bounds a left max fold from below. -/
theorem mem_le_foldl_max : ∀ (l : List ℚ) (s x : ℚ), x ∈ l → x ≤ l.foldl max s
  | a :: l, s, x, h => by
    rcases List.mem_cons.mp h with rfl | h'
    · exact le_trans (le_max_right s x) (le_foldl_max l (max s x))
    · exact mem_le_foldl_max l (max s a) x h'

/-- A left max fold is the seed or a member of the list. -/
theorem foldl_max_mem : ∀ (l : List ℚ) (s : ℚ), l.foldl max s = s ∨ l.foldl max s ∈ l
  | [], _ => Or.inl rfl
  | a :: l, s => by
    rcases foldl_max_mem l (max s a) with h | h
    · rcases max_choice s a with hc | hc
      · rw [List.foldl_cons, h, hc]
        exact Or.inl rfl
      · rw [List.foldl_cons, h, hc]
        exact Or.inr (List.mem_cons_self a l)
    · exact Or.inr (List.mem_cons_of_mem a h)

/-- The distance loop sums consecutive-pair Haversine distances. -/
theorem tripDistance_eq_zip_sum : ∀ (points : List TripPoint),
    tripDistance points =
      ((points.zip points.tail).map (fun pq =>
        calculateDistance pq.1.latitude pq.1.longitude
          pq.2.latitude pq.2.longitude)).sum
  | [] => by simp [tripDistance]
  | [p] => by simp [tripDistance]
  | p :: q :: rest => by
    rw [tripDistance]
    rw [tripDistance_eq_zip_sum (q :: rest)]
    simp [List.zip]

/-- C9: the trip rollup sums consecutive-pair Haversine distances
with no smoothing, averages exactly the strictly positive reported
speeds (their mean times their count is their sum, and the maximum is
attained and bounds them all), yields 0 for both speed statistics when
no positive speed exists, and on the two-point example (0,0) to
(0,0.001) with speeds 10 and 20 produces averageSpeed 15, maxSpeed 20
and a distance strictly between 111 m and 112 m. -/
theorem finalize_contract :
    (∀ points : List TripPoint,
      (finalize points).distance =
        ((points.zip points.tail).map (fun pq =>
          calculateDistance pq.1.latitude pq.1.longitude
            pq.2.latitude pq.2.longitude)).sum) ∧
    (∀ points : List TripPoint, positiveSpeeds points ≠ [] →
      (finalize points).averageSpeed * (positiveSpeeds points).length =
        (positiveSpeeds points).sum ∧
      (finalize points).maxSpeed ∈ positiveSpeeds points ∧
      ∀ s ∈ positiveSpeeds points, s ≤ (finalize points).maxSpeed) ∧
    (∀ points : List TripPoint, positiveSpeeds points = [] →
      (finalize points).averageSpeed = 0 ∧ (finalize points).maxSpeed = 0) ∧
    ((finalize [⟨0, 0, 10, 0⟩, ⟨0, 0.001, 20, 1⟩]).averageSpeed = 15 ∧
     (finalize [⟨0, 0, 10, 0⟩, ⟨0, 0.001, 20, 1⟩]).maxSpeed = 20 ∧
     111 < (finalize [⟨0, 0, 10, 0⟩, ⟨0, 0.001, 20, 1⟩]).distance ∧
     (finalize [⟨0, 0, 10, 0⟩, ⟨0, 0.001, 20, 1⟩]).distance < 112) := by
  refine ⟨fun points => tripDistance_eq_zip_sum points, ?_, ?_, ?_⟩
  · intro points h
    have hlen : 0 < (positiveSpeeds points).length := List.length_pos.mpr h
    refine ⟨?_, ?_, ?_⟩
    · show averageSpeed points * _ = _
      rw [averageSpeed]
      simp only [hlen, if_pos]
      rw [div_mul_cancel₀]
      exact Nat.cast_ne_zero.mpr hlen.ne'
    · show maxSpeed points ∈ _
      rw [maxSpeed]
      rcases hs : positiveSpeeds points with _ | ⟨s, rest⟩
      · exact absurd hs h
      · show List.foldl max s rest ∈ s :: rest
        rcases foldl_max_mem rest s with hm | hm
        · rw [hm]; exact List.mem_cons_self s rest
        · exact List.mem_cons_of_mem s hm
    · intro s hs
      show s ≤ maxSpeed points
      rw [maxSpeed]
      rcases hps : positiveSpeeds points with _ | ⟨a, rest⟩
      · rw [hps] at hs; simp at hs
      · rw [hps] at hs
        show s ≤ List.foldl max a rest
        rcases List.mem_cons.mp hs with rfl | h'
        · exact le_foldl_max rest s
        · exact mem_le_foldl_max rest a s h'
  · intro points h
    constructor
    · rw [show (finalize points).averageSpeed = averageSpeed points from rfl,
        averageSpeed, h]
      simp
    · rw [show (finalize points).maxSpeed = maxSpeed points from rfl, maxSpeed, h]
  · have hps : positiveSpeeds [(⟨0, 0, 10, 0⟩ : TripPoint), ⟨0, 0.001, 20, 1⟩] = [10, 20] := by
      norm_num [positiveSpeeds]
    refine ⟨?_, ?_, ?_, ?_⟩
    · rw [show (finalize _).averageSpeed = averageSpeed _ from rfl, averageSpeed, hps]
      norm_num
    · rw [show (finalize _).maxSpeed = maxSpeed _ from rfl, maxSpeed, hps]
      norm_num
    · rw [show (finalize _).distance = tripDistance _ from rfl]
      rw [show tripDistance [(⟨0, 0, 10, 0⟩ : TripPoint), ⟨0, 0.001, 20, 1⟩] =
        calculateDistance ((0 : ℚ) : ℝ) ((0 : ℚ) : ℝ) ((0 : ℚ) : ℝ)
          ((0.001 : ℚ) : ℝ) + 0 from rfl]
      norm_num
      rw [show ((1 : ℝ)/1000) = 0.001 by norm_num, calculateDistance_equator_small]
      nlinarith [Real.pi_gt_d4]
    · rw [show (finalize _).distance = tripDistance _ from rfl]
      rw [show tripDistance [(⟨0, 0, 10, 0⟩ : TripPoint), ⟨0, 0.001, 20, 1⟩] =
        calculateDistance ((0 : ℚ) : ℝ) ((0 : ℚ) : ℝ) ((0 : ℚ) : ℝ)
          ((0.001 : ℚ) : ℝ) + 0 from rfl]
      norm_num
      rw [show ((1 : ℝ)/1000) = 0.001 by norm_num, calculateDistance_equator_small]
      nlinarith [Real.pi_lt_d4]

/-- C3: an event matches an existing record iff some record lies
within 0.0005 degrees on both axes (otherwise a fresh record with
verifiedCount 1 is inserted and created = true is returned); among
matches the query picks the row with minimal Manhattan distance in
degrees, earlier rows winning ties, and returns created = false with
verifications = previous verifiedCount + 1.  Concretely, submitting
(37.7750, -122.4194, 6) to an empty table creates (verifications 1) and
then (37.77502, -122.41941, 8) reinforces it (verifications 2, merged
intensity 7). -/
theorem submit_match_contract :
    (∀ (st : ServerState) (e : Submission),
      ¬(e.latitude = 0 ∨ e.longitude = 0 ∨ e.intensity = 0) →
      (((submit st e).1 = some ⟨true, 1⟩ ∧
        (submit st e).2.bumps =
          st.bumps ++
            [⟨e.latitude, e.longitude, e.intensity, e.timestamp, 1, e.timestamp⟩]) ↔
        ∀ r ∈ st.bumps, ¬ withinBox e.latitude e.longitude r) ∧
      (∀ i d, bestMatch e.latitude e.longitude st.bumps = some (i, d) →
        i < st.bumps.length ∧
        withinBox e.latitude e.longitude (st.bumps.getD i default) ∧
        (∀ j, j < st.bumps.length →
          withinBox e.latitude e.longitude (st.bumps.getD j default) →
          manhattan e.latitude e.longitude (st.bumps.getD i default) ≤
            manhattan e.latitude e.longitude (st.bumps.getD j default)) ∧
        (∀ j, j < i →
          withinBox e.latitude e.longitude (st.bumps.getD j default) →
          manhattan e.latitude e.longitude (st.bumps.getD i default) <
            manhattan e.latitude e.longitude (st.bumps.getD j default)) ∧
        (submit st e).1 = some ⟨false, (st.bumps.getD i default).verifiedCount + 1⟩)) ∧
    ((submit initialServerState ⟨37.7750, -122.4194, 6, 0⟩).1 = some ⟨true, 1⟩ ∧
     (submit (submit initialServerState ⟨37.7750, -122.4194, 6, 0⟩).2
        ⟨37.77502, -122.41941, 8, 1⟩).1 = some ⟨false, 2⟩ ∧
     (submit (submit initialServerState ⟨37.7750, -122.4194, 6, 0⟩).2
        ⟨37.77502, -122.41941, 8, 1⟩).2.bumps.map (fun r => r.intensity) = [7]) := by
  constructor
  · intro st e hv
    constructor
    · unfold submit
      rw [if_neg hv]
      rcases hb : bestMatch e.latitude e.longitude st.bumps with _ | ⟨i, d⟩
      · simp only [hb]
        constructor
        · intro _
          exact (bestMatch_eq_none _ _ _).mp hb
        · intro _
          exact ⟨by trivial, by trivial⟩
      · simp only [hb]
        constructor
        · intro ⟨h1, _⟩
          simp at h1
        · intro hno
          have := (bestMatch_eq_none e.latitude e.longitude st.bumps).mpr hno
          rw [hb] at this
          simp at this
    · intro i d hb
      obtain ⟨hlen, hwi, hd, hmin, hstrict⟩ :=
        bestMatch_spec e.latitude e.longitude st.bumps i d hb
      subst hd
      refine ⟨hlen, hwi, hmin, hstrict, ?_⟩
      unfold submit
      rw [if_neg hv]
      simp only [hb]
  · refine ⟨?_, ?_, ?_⟩
    · norm_num [submit, bestMatch, initialServerState]
    · norm_num [submit, bestMatch, withinBox, manhattan, initialServerState, abs_lt]
    · norm_num [submit, bestMatch, withinBox, manhattan, reinforce,
        initialServerState, abs_lt]
      decide

/-- A declined analysis leaves the detector state untouched. -/
theorem analyze_false_state (st : DetectorState) (d : MotionSample)
    (h : (analyzeForSpeedBump st d).1 = false) :
    (analyzeForSpeedBump st d).2 = st := by
  by_cases h1 : d.timestamp - st.lastSignificantMovement < detectionCooldown
  · simp [analyzeForSpeedBump, h1]
  · by_cases h2 : st.sensitivity < d.magnitude
    · by_cases h3 : 5 ≤ st.movementBuffer.length
      · by_cases h4 : (recentWindow st.movementBuffer).sum /
            ((recentWindow st.movementBuffer).length : ℚ) * 1.5 < d.magnitude
        · simp [analyzeForSpeedBump, h1, h2, h3, h4] at h
        · simp [analyzeForSpeedBump, h1, h2, h3, h4]
      · simp [analyzeForSpeedBump, h1, h2, h3]
    · simp [analyzeForSpeedBump, h1, h2]

/-- A confirmed analysis happened outside the cooldown window and reset
the cooldown timer to the sample time. -/
theorem analyze_true_facts (st : DetectorState) (d : MotionSample)
    (h : (analyzeForSpeedBump st d).1 = true) :
    st.lastSignificantMovement + detectionCooldown ≤ d.timestamp ∧
    (analyzeForSpeedBump st d).2.lastSignificantMovement = d.timestamp := by
  by_cases h1 : d.timestamp - st.lastSignificantMovement < detectionCooldown
  · simp [analyzeForSpeedBump, h1] at h
  · refine ⟨by omega, ?_⟩
    by_cases h2 : st.sensitivity < d.magnitude
    · by_cases h3 : 5 ≤ st.movementBuffer.length
      · by_cases h4 : (recentWindow st.movementBuffer).sum /
            ((recentWindow st.movementBuffer).length : ℚ) * 1.5 < d.magnitude
        · simp [analyzeForSpeedBump, h1, h2, h3, h4]
        · simp [analyzeForSpeedBump, h1, h2, h3, h4] at h
      · simp [analyzeForSpeedBump, h1, h2, h3] at h
    · simp [analyzeForSpeedBump, h1, h2] at h

/-- With at least five buffered samples, the recent window has exactly
five entries. -/
theorem recentWindow_length (buf : List MotionSample) (h : 5 ≤ buf.length) :
    (recentWindow buf).length = 5 := by
  simp only [recentWindow, List.length_map, List.length_drop]
  omega

/-- C4: the detector confirms a sample only if its calibrated
magnitude exceeds the sensitivity threshold, the rolling buffer holds
at least 5 samples, and the magnitude exceeds 1.5 times the mean
magnitude of the 5 most recent buffered samples; in particular a sample
with magnitude below the threshold is never confirmed, whatever the
buffer holds. -/
theorem detector_emit_conditions :
    (∀ (st : DetectorState) (d : MotionSample),
      (analyzeForSpeedBump st d).1 = true →
      st.sensitivity < d.magnitude ∧
      5 ≤ st.movementBuffer.length ∧
      (recentWindow st.movementBuffer).sum / 5 * 1.5 < d.magnitude) ∧
    (∀ (st : DetectorState) (d : MotionSample),
      d.magnitude < st.sensitivity → (analyzeForSpeedBump st d).1 = false) := by
  constructor
  · intro st d h
    by_cases h1 : d.timestamp - st.lastSignificantMovement < detectionCooldown
    · simp [analyzeForSpeedBump, h1] at h
    · by_cases h2 : st.sensitivity < d.magnitude
      · by_cases h3 : 5 ≤ st.movementBuffer.length
        · by_cases h4 : (recentWindow st.movementBuffer).sum /
              ((recentWindow st.movementBuffer).length : ℚ) * 1.5 < d.magnitude
          · refine ⟨h2, h3, ?_⟩
            rwa [recentWindow_length st.movementBuffer h3] at h4
          · simp [analyzeForSpeedBump, h1, h2, h3, h4] at h
        · simp [analyzeForSpeedBump, h1, h2, h3] at h
      · simp [analyzeForSpeedBump, h1, h2] at h
  · intro st d hlt
    by_cases h1 : d.timestamp - st.lastSignificantMovement < detectionCooldown
    · simp [analyzeForSpeedBump, h1]
    · have h2 : ¬ st.sensitivity < d.magnitude := lt_asymm hlt
      simp [analyzeForSpeedBump, h1, h2]

/-- Witness for C4 at a concrete emitting state. -/
theorem detector_emit_conditions_witness :
    ((⟨5/2, 0, [⟨0, 1⟩, ⟨1, 1⟩, ⟨2, 1⟩, ⟨3, 1⟩, ⟨4, 1⟩]⟩ : DetectorState).sensitivity <
      (⟨10000, 5⟩ : MotionSample).magnitude) ∧
    5 ≤ (⟨5/2, 0, [⟨0, 1⟩, ⟨1, 1⟩, ⟨2, 1⟩, ⟨3, 1⟩,
      ⟨4, 1⟩]⟩ : DetectorState).movementBuffer.length ∧
    (recentWindow (⟨5/2, 0, [⟨0, 1⟩, ⟨1, 1⟩, ⟨2, 1⟩, ⟨3, 1⟩,
      ⟨4, 1⟩]⟩ : DetectorState).movementBuffer).sum / 5 * 1.5 <
      (⟨10000, 5⟩ : MotionSample).magnitude :=
  detector_emit_conditions.1 ⟨5/2, 0, [⟨0, 1⟩, ⟨1, 1⟩, ⟨2, 1⟩, ⟨3, 1⟩, ⟨4, 1⟩]⟩ ⟨10000, 5⟩
    (by norm_num [analyzeForSpeedBump, recentWindow, detectionCooldown])

/-- Invariant of a detector run: every confirmed detection happens at
least a cooldown after the initial timer value, and consecutive
confirmed detections are at least a cooldown apart. -/
theorem runDetector_inv :
    ∀ (ds : List MotionSample) (st : DetectorState),
      (∀ t ∈ (runDetector st ds).2,
        st.lastSignificantMovement + detectionCooldown ≤ t) ∧
      (runDetector st ds).2.Pairwise (fun a b => a + detectionCooldown ≤ b)
  | [], st => by simp [runDetector]
  | d :: ds, st => by
    have ih := runDetector_inv ds (handleMotionStep st d).2
    have hout : (runDetector st (d :: ds)).2 =
        (if (handleMotionStep st d).1 then [d.timestamp] else []) ++
          (runDetector (handleMotionStep st d).2 ds).2 := rfl
    cases hb : (handleMotionStep st d).1 with
    | false =>
      have he : (analyzeForSpeedBump st d).1 = false := hb
      have hlast : (handleMotionStep st d).2.lastSignificantMovement =
          st.lastSignificantMovement := by
        rw [show (handleMotionStep st d).2.lastSignificantMovement =
          (analyzeForSpeedBump st d).2.lastSignificantMovement from rfl,
          analyze_false_state st d he]
      rw [hout, hb]
      simp only [if_neg Bool.false_ne_true, List.nil_append]
      rw [hlast] at ih
      exact ih
    | true =>
      have he : (analyzeForSpeedBump st d).1 = true := hb
      obtain ⟨hcool, hreset⟩ := analyze_true_facts st d he
      have hlast : (handleMotionStep st d).2.lastSignificantMovement = d.timestamp := by
        rw [show (handleMotionStep st d).2.lastSignificantMovement =
          (analyzeForSpeedBump st d).2.lastSignificantMovement from rfl, hreset]
      rw [hout, hb]
      simp only [if_pos rfl, List.singleton_append]
      rw [hlast] at ih
      have hcd : (0 : ℤ) ≤ detectionCooldown := by norm_num [detectionCooldown]
      constructor
      · intro t ht
        rcases List.mem_cons.mp ht with rfl | ht'
        · exact hcool
        · have := ih.1 t ht'
          omega
      · exact List.Pairwise.cons (fun t ht => ih.1 t ht) ih.2

/-- C5: along any sample stream, the timestamps of confirmed detections
are pairwise at least one cooldown window (3000 ms) apart: a second
would-be detection less than 3 s after a confirmed one is suppressed. -/
theorem detector_cooldown_separation (st : DetectorState) (ds : List MotionSample) :
    (runDetector st ds).2.Pairwise (fun a b => a + detectionCooldown ≤ b) :=
  (runDetector_inv ds st).2

/-- C6 (amended): with strictly more than 10 delivered samples the
committed baseline is the componentwise mean of the collected samples
(the first 50 of them when more arrive) and `isCalibrated` becomes
true; with 10 or fewer samples the calibration state is left unchanged
— in particular `isCalibrated` is NOT forced to true. -/
theorem calibrate_spec (st : CalibrationState) (delivered : List Axes) :
    (10 < delivered.length →
      calibrate st delivered = ⟨meanAxes (delivered.take 50), true⟩) ∧
    (delivered.length ≤ 10 → calibrate st delivered = st) := by
  constructor
  · intro h
    unfold calibrate
    by_cases h50 : 50 ≤ delivered.length
    · rw [if_pos h50]
    · rw [if_neg h50, if_pos h]
      rw [List.take_of_length_le (by omega)]
  · intro h
    unfold calibrate
    rw [if_neg (by omega), if_neg (by omega)]

/-- Witness for C6: 11 samples commit the mean, 9 samples leave the
state untouched. -/
theorem calibrate_spec_witness :
    calibrate ⟨⟨0, 0, 981/100⟩, false⟩ (List.replicate 11 ⟨2, 2, 2⟩) =
      ⟨meanAxes ((List.replicate 11 ⟨2, 2, 2⟩).take 50), true⟩ ∧
    calibrate ⟨⟨0, 0, 981/100⟩, false⟩ (List.replicate 9 ⟨2, 2, 2⟩) =
      ⟨⟨0, 0, 981/100⟩, false⟩ :=
  ⟨(calibrate_spec ⟨⟨0, 0, 981/100⟩, false⟩ (List.replicate 11 ⟨2, 2, 2⟩)).1 (by simp),
   (calibrate_spec ⟨⟨0, 0, 981/100⟩, false⟩ (List.replicate 9 ⟨2, 2, 2⟩)).2 (by simp)⟩

/-- C6 (counterexample to the claim as stated): a calibration run
truncated by the timeout after only 5 samples commits nothing: the
baseline stays at its previous value instead of the sample mean
(1, 1, 1), and `isCalibrated` stays false, refuting the fail-soft claim. -/
theorem calibrate_short_run_fails :
    calibrate ⟨⟨0, 0, 981/100⟩, false⟩ (List.replicate 5 ⟨1, 1, 1⟩) =
      ⟨⟨0, 0, 981/100⟩, false⟩ ∧
    (calibrate ⟨⟨0, 0, 981/100⟩, false⟩ (List.replicate 5 ⟨1, 1, 1⟩)).isCalibrated =
      false ∧
    meanAxes (List.replicate 5 ⟨1, 1, 1⟩) = ⟨1, 1, 1⟩ ∧
    (calibrate ⟨⟨0, 0, 981/100⟩, false⟩ (List.replicate 5 ⟨1, 1, 1⟩)).baseline ≠
      ⟨1, 1, 1⟩ := by
  refine ⟨?_, ?_, ?_, ?_⟩
  · norm_num [calibrate]
  · norm_num [calibrate]
  · norm_num [meanAxes, List.replicate]
  · norm_num [calibrate]

/-- C7: the location relay is NOT session-scoped.  With two open
connections whose stored sessions differ (sender in session A, the
other in session B), the `live_location` broadcast for session A is
delivered to the session-B connection. -/
theorem location_update_crosses_sessions :
    ((1, OutMsg.liveLocation ("A") 1 2 0) ∈
      (handleLocationUpdate [⟨0, some ("A"), true⟩, ⟨1, some ("B"), true⟩]
        ⟨0, some ("A"), true⟩ ⟨("A"), 1, 2⟩).2) ∧
    (⟨1, some ("B"), true⟩ : Client).sessionId ≠ some ("A") := by
  constructor
  · simp [handleLocationUpdate, broadcastToOthers]
  · simp

/-- C8 (amended): a `speed_bump_detected` message is relayed through
`broadcastToAll` to every open connection regardless of session —
including the sender itself, which therefore receives the broadcast
echo in addition to its `speed_bump_reported` acknowledgment; the
delivery list is exactly the open clients in order followed by the
sender acknowledgment. -/
theorem speed_bump_broadcast_global (clients : List Client) (sender : Client)
    (m : BumpMsg) :
    (∀ c ∈ clients, c.isOpen = true →
      (c.cid, OutMsg.communitySpeedBump m.sessionId m.latitude m.longitude
        m.intensity sender.cid) ∈ handleSpeedBumpDetection clients sender m) ∧
    (sender.cid, OutMsg.speedBumpAck) ∈ handleSpeedBumpDetection clients sender m ∧
    handleSpeedBumpDetection clients sender m =
      (clients.filter (fun c => c.isOpen)).map
        (fun c => (c.cid, OutMsg.communitySpeedBump m.sessionId m.latitude
          m.longitude m.intensity sender.cid)) ++
      [(sender.cid, OutMsg.speedBumpAck)] := by
  refine ⟨?_, ?_, rfl⟩
  · intro c hc hopen
    unfold handleSpeedBumpDetection broadcastToAll
    apply List.mem_append_left
    exact List.mem_map_of_mem _ (List.mem_filter.mpr ⟨hc, hopen⟩)
  · unfold handleSpeedBumpDetection
    exact List.mem_append_right _ (List.mem_singleton.mpr rfl)

/-- Witness for C8: in a three-client hub the sending open client is
itself a recipient of the broadcast. -/
theorem speed_bump_broadcast_global_witness :
    ((0 : ℕ), OutMsg.communitySpeedBump ("A") 1 2 5 0) ∈
      handleSpeedBumpDetection
        [⟨0, some ("A"), true⟩, ⟨1, some ("B"), true⟩, ⟨2, none, true⟩]
        ⟨0, some ("A"), true⟩ ⟨("A"), 1, 2, 5⟩ :=
  (speed_bump_broadcast_global
      [⟨0, some ("A"), true⟩, ⟨1, some ("B"), true⟩, ⟨2, none, true⟩]
      ⟨0, some ("A"), true⟩ ⟨("A"), 1, 2, 5⟩).1
    ⟨0, some ("A"), true⟩ (by simp) rfl

/-- C8 (counterexample to the claim as stated): with three open
connections including the sender, the sender receives the
`community_speed_bump` broadcast echo itself (in addition to its
acknowledgment), contrary to the claim that it receives only the
acknowledgment. -/
theorem sender_receives_speed_bump_echo :
    ((0 : ℕ), OutMsg.communitySpeedBump ("A") 1 2 5 0) ∈
      handleSpeedBumpDetection
        [⟨0, some ("A"), true⟩, ⟨1, some ("B"), true⟩, ⟨2, none, true⟩]
        ⟨0, some ("A"), true⟩ ⟨("A"), 1, 2, 5⟩ ∧
    ((0 : ℕ), OutMsg.speedBumpAck) ∈
      handleSpeedBumpDetection
        [⟨0, some ("A"), true⟩, ⟨1, some ("B"), true⟩, ⟨2, none, true⟩]
        ⟨0, some ("A"), true⟩ ⟨("A"), 1, 2, 5⟩ ∧
    OutMsg.communitySpeedBump ("A") 1 2 5 0 ≠ OutMsg.speedBumpAck := by
  refine ⟨?_, ?_, by simp⟩
  · simp [handleSpeedBumpDetection, broadcastToAll]
  · simp [handleSpeedBumpDetection, broadcastToAll]

/-- Witness for C3: a valid submission against the empty table takes
the insert branch. -/
theorem submit_match_contract_witness :
    (submit initialServerState ⟨5, 6, 7, 8⟩).1 = some ⟨true, 1⟩ ∧
    (submit initialServerState ⟨5, 6, 7, 8⟩).2.bumps = [⟨5, 6, 7, 8, 1, 8⟩] :=
  (submit_match_contract.1 initialServerState ⟨5, 6, 7, 8⟩ (by norm_num)).1.mpr
    (by simp [initialServerState])

/-- Witness for C9: the mean law on the two-point example and the
zero statistics of an empty trip. -/
theorem finalize_contract_witness :
    (finalize [(⟨0, 0, 10, 0⟩ : TripPoint), ⟨0, 0.001, 20, 1⟩]).averageSpeed *
        ((positiveSpeeds [(⟨0, 0, 10, 0⟩ : TripPoint), ⟨0, 0.001, 20, 1⟩]).length : ℚ) =
      (positiveSpeeds [(⟨0, 0, 10, 0⟩ : TripPoint), ⟨0, 0.001, 20, 1⟩]).sum ∧
    (finalize ([] : List TripPoint)).averageSpeed = 0 ∧
    (finalize ([] : List TripPoint)).maxSpeed = 0 :=
  ⟨(finalize_contract.2.1 [⟨0, 0, 10, 0⟩, ⟨0, 0.001, 20, 1⟩]
      (by norm_num [positiveSpeeds]; simp)).1,
   (finalize_contract.2.2.1 [] (by norm_num [positiveSpeeds])).1,
   (finalize_contract.2.2.1 [] (by norm_num [positiveSpeeds])).2⟩
